import Mathlib

/-!
Verification development for the railway-exporter collection engine.

The definitions below are a shallow embedding of the Rust sources:
`src/collector.rs`, `src/state.rs`, `src/server.rs`, `src/utils/icons.rs`,
`src/pricing.rs`, `src/client.rs` and `src/config.rs`.  Floating-point
amounts (`f64`) are modelled as rationals; `HashMap`s are modelled as
association lists (the list order stands for the map's iteration order);
async functions become pure state-passing functions whose network calls
are supplied as explicit outcome parameters.
-/

namespace Railway

/-! ### String primitives (Rust `str` operations, modelled on the char list) -/

/-- Rust `str::is_empty`. -/
def rsIsEmpty (s : String) : Bool :=
  s.toList.isEmpty

/-- Rust `str::starts_with(pat)`. -/
def rsStartsWith (s pat : String) : Bool :=
  pat.toList.isPrefixOf s.toList

/-- Substring test on char lists: `needle` occurs contiguously in the
second argument. -/
def listIsInfix (needle : List Char) : List Char → Bool
  | [] => needle.isPrefixOf []
  | h :: t => needle.isPrefixOf (h :: t) || listIsInfix needle t

/-- Rust `str::contains(pat)`: substring test. -/
def strContains (s pat : String) : Bool :=
  listIsInfix pat.toList s.toList

/-! ### Pricing (`src/pricing.rs`) -/

/-- `pricing::get_price(plan, measurement)`: default price table.  The Rust
match arms are tried in order; `plan.to_lowercase()` is applied first. -/
def get_price (plan measurement : String) : ℚ :=
  let p := plan.toLower
  if p = "pro" ∧ measurement = "CPU_USAGE" then 231 / 1000000
  else if p = "pro" ∧ measurement = "MEMORY_USAGE_GB" then 116 / 1000000
  else if measurement = "CPU_USAGE" then 463 / 1000000
  else if measurement = "MEMORY_USAGE_GB" then 231 / 1000000
  else if measurement = "DISK_USAGE_GB" then 21 / 1000000
  else if measurement = "NETWORK_TX_GB" then 1 / 10
  else 0

/-- `pricing::PricingConfig`: a plan name plus per-measurement overrides. -/
structure PricingConfig where
  plan : String
  overrides : List (String × ℚ)
deriving DecidableEq

/-- `PricingConfig::get_price`: override lookup, falling back to the plan
default table. -/
def PricingConfig.get_price (c : PricingConfig) (measurement : String) : ℚ :=
  match c.overrides.lookup measurement with
  | some price => price
  | none => Railway.get_price c.plan measurement

/-! ### Configuration (`src/config.rs`) -/

/-- `config::IconMode`. -/
inductive IconMode where
  | base64
  | link
deriving DecidableEq

/-- `config::IconCacheConfig`.  The `base_url` field is referenced by
`collector.rs` and `handlers/status.rs` although the provided `config.rs`
does not declare it (version skew in the sources); it is modelled as the
plain string the collector reads. -/
structure IconCacheConfig where
  enabled : Bool
  max_count : Nat
  mode : IconMode
  max_age : Nat
  base_url : String
deriving DecidableEq

/-- The slice of `config::Config` the collector reads. -/
structure Config where
  project_id : String
  pricing : PricingConfig
  /-- `service_groups : HashMap<String, Vec<String>>`; the list order models
  the map's iteration order. -/
  service_groups : List (String × List String)
  icon_cache : IconCacheConfig
deriving DecidableEq

/-! ### API client data (`src/client.rs`) -/

/-- `client::ApiError`. -/
inductive ApiError where
  | requestError (msg : String)
  | graphQLError (msg : String)
  | parseError (msg : String)
  | noData
deriving DecidableEq

/-- `Display for ApiError` (used by `e.to_string()` in the collector). -/
def ApiError.toMessage : ApiError → String
  | .requestError m => "Request error: " ++ m
  | .graphQLError m => "GraphQL error: " ++ m
  | .parseError m => "Parse error: " ++ m
  | .noData => "No data in response"

/-- `client::ServiceNode`. -/
structure ServiceNode where
  id : String
  name : String
  icon : Option String
deriving DecidableEq

/-- `client::ServiceEdge`. -/
structure ServiceEdge where
  node : ServiceNode
deriving DecidableEq

/-- `client::ServiceEdges`. -/
structure ServiceEdges where
  edges : List ServiceEdge
deriving DecidableEq

/-- `client::Project`. -/
structure Project where
  name : String
  services : ServiceEdges
deriving DecidableEq

/-- Result of `Client::get_usage`: service id → (measurement → value).
Association lists model the `HashMap`s. -/
abbrev UsageMap := List (String × List (String × ℚ))

/-- Result of `Client::get_estimated_usage`: measurement → value. -/
abbrev EstimatedMap := List (String × ℚ)

/-! ### Icon cache (`src/utils/icons.rs`)

The `lru::LruCache` is modelled as an association list ordered most-recently
used first; the HTTP client is modelled as an explicit fetch-outcome
function `String → Except String CachedIcon` (the `Err` payload is the
formatted error message, as in `fetch_icon`). -/

/-- `icons::CachedIcon`: content type plus raw bytes (bytes as `Nat < 256`). -/
structure CachedIcon where
  content_type : String
  data : List Nat
deriving DecidableEq

/-- Alphabet of standard base64 (`base64::engine::general_purpose::STANDARD`). -/
def base64Chars : List Char :=
  "ABCDEFGHIJKLMNOPQRSTUVWXYZabcdefghijklmnopqrstuvwxyz0123456789+/".toList

/-- Standard base64 encoding with `=` padding. -/
def base64Encode : List Nat → List Char
  | [] => []
  | [b1] =>
    [base64Chars.getD (b1 / 4) 'A', base64Chars.getD (b1 % 4 * 16) 'A', '=', '=']
  | [b1, b2] =>
    [base64Chars.getD (b1 / 4) 'A', base64Chars.getD (b1 % 4 * 16 + b2 / 16) 'A',
     base64Chars.getD (b2 % 16 * 4) 'A', '=']
  | b1 :: b2 :: b3 :: rest =>
    base64Chars.getD (b1 / 4) 'A' ::
    base64Chars.getD (b1 % 4 * 16 + b2 / 16) 'A' ::
    base64Chars.getD (b2 % 16 * 4 + b3 / 64) 'A' ::
    base64Chars.getD (b3 % 64) 'A' :: base64Encode rest

/-- `CachedIcon::to_data_url`. -/
def CachedIcon.to_data_url (i : CachedIcon) : String :=
  "data:" ++ i.content_type ++ ";base64," ++ String.mk (base64Encode i.data)

/-- The LRU cache contents: most-recently-used entry first. -/
abbrev Lru := List (String × CachedIcon)

/-- `LruCache::get`: on a hit the entry moves to the front (most recent). -/
def lruGet (c : Lru) (k : String) : Option CachedIcon × Lru :=
  match c.lookup k with
  | some v => (some v, (k, v) :: c.eraseP (fun e => e.1 == k))
  | none => (none, c)

/-- `LruCache::contains`: pure lookup, recency unchanged. -/
def lruContains (c : Lru) (k : String) : Bool :=
  (c.lookup k).isSome

/-- `LruCache::put` with capacity `cap`: insert at the front (replacing any
entry with the same key) and evict the least-recently-used entry if the
capacity is exceeded. -/
def lruPut (cap : Nat) (c : Lru) (k : String) (v : CachedIcon) : Lru :=
  let c' := (k, v) :: c.eraseP (fun e => e.1 == k)
  if cap < c'.length then c'.take cap else c'

/-- `IconCache::get_icon`.  `fetch` supplies the outcome `fetch_icon` would
produce for a URL; the returned pair is (resolved icon string, new cache
contents). -/
def IconCache.get_icon (cap : Nat) (fetch : String → Except String CachedIcon)
    (cache : Lru) (service_name icon_url : String) : String × Lru :=
  if rsIsEmpty icon_url then ("", cache)
  else if rsStartsWith icon_url "data:" then (icon_url, cache)
  else
    match lruGet cache service_name with
    | (some cached, cache') => (cached.to_data_url, cache')
    | (none, cache') =>
      match fetch icon_url with
      | .ok icon => (icon.to_data_url, lruPut cap cache' service_name icon)
      | .error _ => (icon_url, cache')

/-- `IconCache::ensure_cached`: fetch-if-absent without returning bytes. -/
def IconCache.ensure_cached (cap : Nat) (fetch : String → Except String CachedIcon)
    (cache : Lru) (service_name icon_url : String) : Bool × Lru :=
  if lruContains cache service_name then (true, cache)
  else if rsIsEmpty icon_url || rsStartsWith icon_url "data:" then (false, cache)
  else
    match fetch icon_url with
    | .ok icon => (true, lruPut cap cache service_name icon)
    | .error _ => (false, cache)

/-- `IconCache::get_raw`: pure cache lookup with LRU promotion. -/
def IconCache.get_raw (cache : Lru) (service_name : String) : Option CachedIcon × Lru :=
  lruGet cache service_name

/-! ### URL encoding (`urlencoding::encode`, used by the collector's link mode) -/

/-- Unreserved URL bytes: ASCII alphanumerics and `-`, `.`, `_`, `~`. -/
def isUrlUnreserved (b : Nat) : Bool :=
  (65 ≤ b && b ≤ 90) || (97 ≤ b && b ≤ 122) || (48 ≤ b && b ≤ 57) ||
  b == 45 || b == 46 || b == 95 || b == 126

/-- Uppercase hex digit of a value below 16. -/
def hexDigit (n : Nat) : Char :=
  "0123456789ABCDEF".toList.getD n '0'

/-- Percent-encode one UTF-8 byte. -/
def percentEncodeByte (b : Nat) : List Char :=
  if isUrlUnreserved b then [Char.ofNat b] else ['%', hexDigit (b / 16), hexDigit (b % 16)]

/-- `urlencoding::encode`: percent-encode every non-unreserved UTF-8 byte. -/
def urlencode (s : String) : String :=
  String.mk (((s.toUTF8.toList.map (fun b => b.toNat)).map percentEncodeByte).flatten)

/-! ### Snapshot and status types (`src/types.rs`, `src/state.rs`) -/

/-- `types::ServiceData`. -/
structure ServiceData where
  id : String
  name : String
  icon : String
  group : String
  cpu_usage : ℚ
  memory_usage : ℚ
  disk_usage : ℚ
  network_tx : ℚ
  cost_usd : ℚ
  estimated_monthly_usd : ℚ
  is_deleted : Bool
deriving DecidableEq

/-- `types::ProjectSummary`. -/
structure ProjectSummary where
  name : String
  current_usage_usd : ℚ
  estimated_monthly_usd : ℚ
  daily_average_usd : ℚ
  days_elapsed : Nat
  days_remaining : Nat
deriving DecidableEq

/-- `types::MetricsJson`: the snapshot published into shared state. -/
structure MetricsJson where
  project : ProjectSummary
  services : List ServiceData
  scrape_timestamp : Int
  scrape_duration_seconds : ℚ
deriving DecidableEq

/-- `state::ApiStatusData` (also `types::ApiStatus`, which mirrors its
fields). -/
structure ApiStatusData where
  last_success : Option Int
  last_error : Option String
  total_scrapes : Nat
  failed_scrapes : Nat
deriving DecidableEq

/-- `types::WsStatus` (process stats are carried as plain numbers). -/
structure WsStatus where
  uptime_seconds : Nat
  memory_mb : ℚ
  cpu_percent : ℚ
  api : ApiStatusData
  ws_clients : Nat
deriving DecidableEq

/-- `types::WsMessage`: the tagged payload broadcast over the WebSocket
channel.  Serialization (`serde_json::to_string`, which cannot fail on these
types) is modelled by carrying the message value itself. -/
inductive WsMessage where
  | metrics (m : MetricsJson)
  | status (s : WsStatus)
deriving DecidableEq

/-- The mutable parts of `state::AppState` that one collector cycle touches:
the status block, the published snapshot, the icon cache contents and the
broadcast channel (modelled as the log of messages sent on it). -/
structure CollectorState where
  api_status : ApiStatusData
  metrics_json : Option MetricsJson
  icon_cache : Lru
  broadcast_log : List WsMessage
deriving DecidableEq

/-! ### Calendar (`chrono` as used by `days_in_current_month`)

`chrono::NaiveDate` is modelled as a year plus a 1-based ordinal day.
`from_ymd_opt` checks the year range (`chrono`'s `MIN_YEAR = -262144`,
`MAX_YEAR = 262143`), the month range and the day range; `pred_opt` steps
one day back; `day` recovers the day-of-month from the ordinal. -/

/-- Gregorian leap-year test (`chrono`'s year flags encode exactly this). -/
def isLeapYear (y : Int) : Bool :=
  y % 4 == 0 && (y % 100 != 0 || y % 400 == 0)

/-- Number of days in a year. -/
def daysInYear (y : Int) : Nat :=
  if isLeapYear y then 366 else 365

/-- Cumulative number of days before month `m` (1-based; `m = 13` gives the
year length). -/
def cumDaysBefore (leap : Bool) (m : Nat) : Nat :=
  (match m with
   | 1 => 0 | 2 => 31 | 3 => 59 | 4 => 90 | 5 => 120 | 6 => 151 | 7 => 181
   | 8 => 212 | 9 => 243 | 10 => 273 | 11 => 304 | 12 => 334 | 13 => 365
   | _ => 0)
  + (if 3 ≤ m then (if leap then 1 else 0) else 0)

/-- `chrono::NaiveDate`: a year and a 1-based ordinal day within it. -/
structure NDate where
  year : Int
  ordinal : Nat
deriving DecidableEq

/-- `NaiveDate::from_ymd_opt`. -/
def NDate.from_ymd_opt (y : Int) (m d : Nat) : Option NDate :=
  if -262144 ≤ y ∧ y ≤ 262143 ∧ 1 ≤ m ∧ m ≤ 12 ∧ 1 ≤ d ∧
      d ≤ cumDaysBefore (isLeapYear y) (m + 1) - cumDaysBefore (isLeapYear y) m then
    some ⟨y, cumDaysBefore (isLeapYear y) m + d⟩
  else none

/-- `NaiveDate::pred_opt`: the previous day (`none` below the minimum date). -/
def NDate.pred_opt (dt : NDate) : Option NDate :=
  if 2 ≤ dt.ordinal then some ⟨dt.year, dt.ordinal - 1⟩
  else if -262144 ≤ dt.year - 1 then some ⟨dt.year - 1, daysInYear (dt.year - 1)⟩
  else none

/-- Month of an `NDate`: the largest month whose cumulative day count is
below the ordinal. -/
def NDate.month (dt : NDate) : Nat :=
  (List.range 12).foldl
    (fun acc i => if cumDaysBefore (isLeapYear dt.year) (i + 1) < dt.ordinal then i + 1 else acc) 1

/-- `Datelike::day` for an `NDate`. -/
def NDate.day (dt : NDate) : Nat :=
  dt.ordinal - cumDaysBefore (isLeapYear dt.year) dt.month

/-- `collector::days_in_current_month`: day of the predecessor of the first
day of the next month (January of the next year when `month == 12`).  The
Rust function unwraps; `none` models the panic on out-of-domain input. -/
def days_in_current_month (year : Int) (month : Nat) : Option Nat :=
  ((if month == 12 then NDate.from_ymd_opt (year + 1) 1 1
    else NDate.from_ymd_opt year (month + 1) 1).bind NDate.pred_opt).map NDate.day

/-- Month length stated directly from the calendar (the spec's
`daysIn(year, month)`): 31/30 per month, February 29 in leap years and 28
otherwise.  This is the specification-side definition that
`days_in_current_month` is compared against. -/
def monthLengthSpec (y : Int) (m : Nat) : Nat :=
  if m = 2 then (if isLeapYear y then 29 else 28)
  else if m = 4 ∨ m = 6 ∨ m = 9 ∨ m = 11 then 30
  else 31

/-! ### The collector (`src/collector.rs`) -/

/-- Outcomes of the network calls one cycle performs: the three API fetches
and the icon fetches (keyed by icon URL). -/
structure FetchOutcomes where
  project : Except ApiError Project
  usage : Except ApiError UsageMap
  estimated : Except ApiError EstimatedMap
  iconFetch : String → Except String CachedIcon

/-- The `Utc::now()` reading a cycle takes: calendar fields plus the Unix
timestamp. -/
structure NowParts where
  year : Int
  month : Nat
  day : Nat
  timestamp : Int
deriving DecidableEq

/-- Group resolution from `collect_metrics` (collector.rs lines 63–69): the
first configured group one of whose patterns is contained in the service
name or equals it; `"ungrouped"` when none matches. -/
def groupPatternMatches (name : String) (patterns : List String) : Bool :=
  patterns.any (fun p => strContains name p || p == name)

/-- The group assigned to a service name (see `groupPatternMatches`). -/
def resolveGroup (service_groups : List (String × List String)) (name : String) : String :=
  ((service_groups.find? (fun gp => groupPatternMatches name gp.2)).map (fun gp => gp.1)).getD
    "ungrouped"

/-- First pass of `collect_metrics`: service info with original icon URLs,
as `(id, name, icon_url, group)`. -/
def servicesRaw (cfg : Config) (project : Project) : List (String × String × String × String) :=
  project.services.edges.map (fun e =>
    (e.node.id, e.node.name, e.node.icon.getD "", resolveGroup cfg.service_groups e.node.name))

/-- Second pass of `collect_metrics` for one service: resolve the icon per
the configured mode, threading the icon cache. -/
def processIconStep (cfg : Config) (fetch : String → Except String CachedIcon)
    (cache : Lru) (name icon_url : String) : String × Lru :=
  if !cfg.icon_cache.enabled then (icon_url, cache)
  else
    match cfg.icon_cache.mode with
    | .base64 => IconCache.get_icon cfg.icon_cache.max_count fetch cache name icon_url
    | .link =>
      if !rsIsEmpty icon_url && !rsStartsWith icon_url "data:" then
        let r := IconCache.ensure_cached cfg.icon_cache.max_count fetch cache name icon_url
        let path := "/static/icons/services/" ++ urlencode name
        (if rsIsEmpty cfg.icon_cache.base_url then path else cfg.icon_cache.base_url ++ path,
         r.2)
      else if rsStartsWith icon_url "data:" then (icon_url, cache)
      else ("", cache)

/-- `HashMap::insert` on an association list: the new binding shadows any
previous one for the key. -/
def hmInsert (m : List (String × α)) (k : String) (v : α) : List (String × α) :=
  (k, v) :: m.eraseP (fun e => e.1 == k)

/-- One step of the second pass: process the entry's icon and insert the
service into the accumulated map. -/
def servicesMapStep (cfg : Config) (fetch : String → Except String CachedIcon)
    (acc : List (String × String × String × String) × Lru)
    (entry : String × String × String × String) :
    List (String × String × String × String) × Lru :=
  let r := processIconStep cfg fetch acc.2 entry.2.1 entry.2.2.1
  (hmInsert acc.1 entry.1 (entry.2.1, r.1, entry.2.2.2), r.2)

/-- The `services` map built by `collect_metrics` (id → (name, icon_data,
group)), together with the icon cache after processing all icons. -/
def buildServicesMap (cfg : Config) (fetch : String → Except String CachedIcon)
    (cache : Lru) (project : Project) :
    List (String × String × String × String) × Lru :=
  (servicesRaw cfg project).foldl (servicesMapStep cfg fetch) ([], cache)

/-- `measurements.get(k).unwrap_or(&0.0)`. -/
def measGet (m : List (String × ℚ)) (k : String) : ℚ :=
  (m.lookup k).getD 0

/-- Cost of one service's measurements (collector.rs lines 137–140). -/
def serviceCost (cfg : Config) (m : List (String × ℚ)) : ℚ :=
  measGet m "CPU_USAGE" * cfg.pricing.get_price "CPU_USAGE"
  + measGet m "MEMORY_USAGE_GB" * cfg.pricing.get_price "MEMORY_USAGE_GB"
  + measGet m "DISK_USAGE_GB" * cfg.pricing.get_price "DISK_USAGE_GB"
  + measGet m "NETWORK_TX_GB" * cfg.pricing.get_price "NETWORK_TX_GB"

/-- The accumulated `total_cost` over the usage map. -/
def totalCost (cfg : Config) (usage : UsageMap) : ℚ :=
  (usage.map (fun su => serviceCost cfg su.2)).sum

/-- The `ServiceData` entry built for one usage key (collector.rs lines
116–160); `estimated_monthly_usd` starts at 0 and is distributed later. -/
def buildServiceData (cfg : Config) (services : List (String × String × String × String))
    (sid : String) (m : List (String × ℚ)) : ServiceData :=
  let d := (services.lookup sid).getD (sid, "", "ungrouped")
  { id := sid
    name := d.1
    icon := d.2.1
    group := d.2.2
    cpu_usage := measGet m "CPU_USAGE"
    memory_usage := measGet m "MEMORY_USAGE_GB"
    disk_usage := measGet m "DISK_USAGE_GB"
    network_tx := measGet m "NETWORK_TX_GB"
    cost_usd := serviceCost cfg m
    estimated_monthly_usd := 0
    is_deleted := !(services.lookup sid).isSome }

/-- The `services_data` vector before estimate distribution. -/
def servicesData (cfg : Config) (services : List (String × String × String × String))
    (usage : UsageMap) : List ServiceData :=
  usage.map (fun su => buildServiceData cfg services su.1 su.2)

/-- `est_monthly`: Σ estimated value × price (collector.rs lines 165–168). -/
def estMonthly (cfg : Config) (estimated : EstimatedMap) : ℚ :=
  (estimated.map (fun mv => mv.2 * cfg.pricing.get_price mv.1)).sum

/-- Proportional distribution of the monthly estimate (collector.rs lines
171–187): only performed when `total_cost > 0`. -/
def distributeEstimated (est_monthly total_cost : ℚ) (sd : List ServiceData) :
    List ServiceData :=
  if 0 < total_cost then
    sd.map (fun s => { s with estimated_monthly_usd := est_monthly * (s.cost_usd / total_cost) })
  else sd

/-- `collector::collect_metrics`: one full cycle as a state transition.
Prometheus gauge writes are process-external output and are not part of the
state; everything that `AppState` stores is.  The scrape duration is passed
in (the Rust code measures it with `Instant`). -/
def collect_metrics (cfg : Config) (f : FetchOutcomes) (now : NowParts)
    (scrape_duration : ℚ) (st : CollectorState) :
    Except ApiError Unit × CollectorState :=
  let st1 : CollectorState :=
    { st with api_status := { st.api_status with
        total_scrapes := st.api_status.total_scrapes + 1 } }
  match f.project with
  | .error e =>
    (.error e,
     { st1 with api_status := { st1.api_status with
         failed_scrapes := st1.api_status.failed_scrapes + 1
         last_error := some e.toMessage } })
  | .ok project =>
    let sm := buildServicesMap cfg f.iconFetch st1.icon_cache project
    let st2 : CollectorState := { st1 with icon_cache := sm.2 }
    match f.usage with
    | .error e => (.error e, st2)
    | .ok usage =>
      match f.estimated with
      | .error e => (.error e, st2)
      | .ok estimated =>
        let total_cost := totalCost cfg usage
        let sdata := distributeEstimated (estMonthly cfg estimated) total_cost
          (servicesData cfg sm.1 usage)
        let days_elapsed := now.day
        let days_in_month := (days_in_current_month now.year now.month).getD 0
        let mj : MetricsJson :=
          { project :=
              { name := project.name
                current_usage_usd := total_cost
                estimated_monthly_usd := estMonthly cfg estimated
                daily_average_usd := total_cost / (days_elapsed : ℚ)
                days_elapsed := days_elapsed
                days_remaining := days_in_month - days_elapsed }
            services := sdata
            scrape_timestamp := now.timestamp
            scrape_duration_seconds := scrape_duration }
        (.ok (),
         { st2 with
             metrics_json := some mj
             broadcast_log := st2.broadcast_log ++ [WsMessage.metrics mj]
             api_status := { st2.api_status with
               last_success := some now.timestamp
               last_error := none } })

/-! ### WebSocket server (`src/server.rs`, `src/state.rs`) -/

/-- Capacity of the broadcast channel created in `AppState::new`
(`broadcast::channel::<String>(16)`). -/
def wsBroadcastCapacity : Nat := 16

/-- `u32` modulus for the `AtomicU32` client counter. -/
def U32_MOD : Nat := 4294967296

/-- `AppState::ws_client_connect`: wrapping increment of the stored counter. -/
def ws_client_connect (c : Nat) : Nat :=
  (c + 1) % U32_MOD

/-- `AppState::ws_client_disconnect`: wrapping decrement of the stored
counter. -/
def ws_client_disconnect (c : Nat) : Nat :=
  (c + (U32_MOD - 1)) % U32_MOD

/-- `build_status` from `handle_websocket`: assembles a `WsStatus` from the
current api status, process stats and client count. -/
def build_status (uptime_seconds : Nat) (memory_mb cpu_percent : ℚ)
    (api : ApiStatusData) (ws_clients : Nat) : WsStatus :=
  { uptime_seconds := uptime_seconds
    memory_mb := memory_mb
    cpu_percent := cpu_percent
    api :=
      { last_success := api.last_success
        last_error := api.last_error
        total_scrapes := api.total_scrapes
        failed_scrapes := api.failed_scrapes }
    ws_clients := ws_clients }

/-- Observable events of one WebSocket handler, in order. -/
inductive WsEvent where
  /-- a `WsMessage` was successfully sent to this subscriber -/
  | sent (m : WsMessage)
  /-- a pre-serialized broadcast payload was forwarded to this subscriber -/
  | sentRaw (json : String)
  /-- `state.ws_broadcast.subscribe()` was called -/
  | subscribed
  /-- `state.ws_client_disconnect()` was called -/
  | disconnected
deriving DecidableEq

/-- The connect phase of `handle_websocket` (server.rs lines 188–220): send
the current status, then the current metrics snapshot if one exists, then
subscribe to the broadcast channel.  A failed send disconnects and returns.
`statusSendOk`/`metricsSendOk` are the outcomes of the two sends. -/
def wsConnectPhase (mj : Option MetricsJson) (status0 : WsStatus)
    (statusSendOk metricsSendOk : Bool) : List WsEvent :=
  if !statusSendOk then [WsEvent.disconnected]
  else
    WsEvent.sent (WsMessage.status status0) ::
    match mj with
    | some m =>
      if !metricsSendOk then [WsEvent.disconnected]
      else [WsEvent.sent (WsMessage.metrics m), WsEvent.subscribed]
    | none => [WsEvent.subscribed]

/-- Result of `rx.recv()` on a `tokio::sync::broadcast` receiver: a message,
a lag error (the receiver fell behind the channel buffer), or a closed
channel.  Both error variants are `Err(_)` in the handler's match. -/
inductive RecvResult where
  | ok (payload : String)
  | lagged (missed : Nat)
  | closed
deriving DecidableEq

/-- Outcome of one pass through the broadcast arm of the handler loop. -/
structure WsLoopOutcome where
  events : List WsEvent
  broke : Bool
  disconnect_calls : Nat
deriving DecidableEq

/-- The broadcast arm of the `handle_websocket` select loop (server.rs lines
254–268): forward the payload, disconnecting on a failed send; any receive
error disconnects this subscriber and terminates its loop. -/
def wsBroadcastStep (r : RecvResult) (sendOk : Bool) : WsLoopOutcome :=
  match r with
  | .ok payload =>
    if sendOk then { events := [WsEvent.sentRaw payload], broke := false, disconnect_calls := 0 }
    else { events := [WsEvent.disconnected], broke := true, disconnect_calls := 1 }
  | .lagged _ => { events := [WsEvent.disconnected], broke := true, disconnect_calls := 1 }
  | .closed => { events := [WsEvent.disconnected], broke := true, disconnect_calls := 1 }

/-! ### Concrete fixtures used by the witnesses -/

/-- A pricing configuration for the hobby plan with no overrides. -/
def hobbyPricing : PricingConfig :=
  { plan := "hobby", overrides := [] }

/-- A configuration with icon caching disabled and no service groups. -/
def plainCfg : Config :=
  { project_id := "proj-1"
    pricing := hobbyPricing
    service_groups := []
    icon_cache :=
      { enabled := false, max_count := 200, mode := IconMode.base64, max_age := 86400,
        base_url := "" } }

/-- The pristine state from `AppState::new`. -/
def freshState : CollectorState :=
  { api_status :=
      { last_success := none, last_error := none, total_scrapes := 0, failed_scrapes := 0 }
    metrics_json := none
    icon_cache := []
    broadcast_log := [] }

/-- A project with two services. -/
def sampleProject : Project :=
  { name := "test-project"
    services :=
      { edges :=
          [ { node := { id := "svc-1", name := "api", icon := none } },
            { node := { id := "svc-2", name := "web", icon := none } } ] } }

/-- An icon-fetch oracle on which every fetch fails. -/
def failingIconFetch : String → Except String CachedIcon :=
  fun _ => Except.error "HTTP error: connection refused"

/-- A `Utc::now()` reading: 2024-05-10. -/
def sampleNow : NowParts :=
  { year := 2024, month := 5, day := 10, timestamp := 1715299200 }

/-- A previously published snapshot. -/
def prevSnapshot : MetricsJson :=
  { project :=
      { name := "old", current_usage_usd := 1, estimated_monthly_usd := 2,
        daily_average_usd := 1 / 10, days_elapsed := 3, days_remaining := 28 }
    services := []
    scrape_timestamp := 100
    scrape_duration_seconds := 1 / 2 }

/-- A state that already holds a published snapshot. -/
def prevState : CollectorState :=
  { freshState with metrics_json := some prevSnapshot }

/-- Fetch outcomes where the project fetch fails. -/
def projectFailFetches : FetchOutcomes :=
  { project := Except.error (ApiError.requestError "down")
    usage := Except.ok []
    estimated := Except.ok []
    iconFetch := failingIconFetch }

/-- Fetch outcomes where the project fetch succeeds and the usage fetch
fails. -/
def usageFailFetches : FetchOutcomes :=
  { project := Except.ok sampleProject
    usage := Except.error (ApiError.requestError "boom")
    estimated := Except.ok []
    iconFetch := failingIconFetch }

/-- Fetch outcomes where project and usage fetches succeed and the estimate
fetch fails. -/
def estimateFailFetches : FetchOutcomes :=
  { project := Except.ok sampleProject
    usage := Except.ok [("svc-1", [("CPU_USAGE", 1000)])]
    estimated := Except.error ApiError.noData
    iconFetch := failingIconFetch }

/-- The service-group mapping used by the C3 witness. -/
def c3Groups : List (String × List String) :=
  [("db", ["postgres", "redis"]), ("backend", ["api"]), ("frontend", ["web"])]

/-- A cached icon value. -/
def sampleIcon : CachedIcon :=
  { content_type := "image/png", data := [137, 80, 78, 71] }

/-- A configuration with icon caching enabled in base64 mode. -/
def iconCfg : Config :=
  { plainCfg with
      icon_cache :=
        { enabled := true, max_count := 200, mode := IconMode.base64, max_age := 86400,
          base_url := "" } }

/-- A project with one service carrying an external icon URL. -/
def sampleProjectWithIcons : Project :=
  { name := "test-project"
    services :=
      { edges :=
          [ { node :=
                { id := "svc-1", name := "api",
                  icon := some "https://example.com/icon.png" } } ] } }

/-- Fetch outcomes where all three API fetches succeed; the usage map holds
one live service and one id absent from the service list; every icon fetch
fails. -/
def okFetches : FetchOutcomes :=
  { project := Except.ok sampleProjectWithIcons
    usage := Except.ok
      [("svc-1", [("CPU_USAGE", 1000)]), ("svc-gone", [("MEMORY_USAGE_GB", 10)])]
    estimated := Except.ok [("CPU_USAGE", 2000)]
    iconFetch := failingIconFetch }

/-- Fetch outcomes whose usage yields a total cost of exactly zero while the
monthly estimate is non-zero. -/
def zeroUsageFetches : FetchOutcomes :=
  { project := Except.ok sampleProject
    usage := Except.ok [("svc-1", []), ("svc-2", [])]
    estimated := Except.ok [("CPU_USAGE", 2000)]
    iconFetch := failingIconFetch }

/-- A status payload as `build_status` assembles it on connect. -/
def sampleStatus : WsStatus :=
  build_status 5 100 1 freshState.api_status 1

/-! ## Theorems -/

/-- Claim C1 (evidence for the code bug): evaluated at concrete inputs, the
three failure points do not perform the same status bookkeeping.  A failed
project fetch increments `failed_scrapes` and records `last_error`, but a
failed usage fetch and a failed estimate fetch abort the cycle while
leaving `failed_scrapes` at 0 and `last_error` at `none`, although
`total_scrapes` was already incremented. -/
theorem C1_unequal_failure_bookkeeping :
    ((collect_metrics plainCfg projectFailFetches sampleNow 0 freshState).1 =
        Except.error (ApiError.requestError "down")
      ∧ ((collect_metrics plainCfg projectFailFetches sampleNow 0
            freshState).2).api_status.failed_scrapes = 1
      ∧ ((collect_metrics plainCfg projectFailFetches sampleNow 0
            freshState).2).api_status.last_error = some "Request error: down")
    ∧ ((collect_metrics plainCfg usageFailFetches sampleNow 0 freshState).1 =
        Except.error (ApiError.requestError "boom")
      ∧ ((collect_metrics plainCfg usageFailFetches sampleNow 0
            freshState).2).api_status.failed_scrapes = 0
      ∧ ((collect_metrics plainCfg usageFailFetches sampleNow 0
            freshState).2).api_status.last_error = none
      ∧ ((collect_metrics plainCfg usageFailFetches sampleNow 0
            freshState).2).api_status.total_scrapes = 1)
    ∧ ((collect_metrics plainCfg estimateFailFetches sampleNow 0 freshState).1 =
        Except.error ApiError.noData
      ∧ ((collect_metrics plainCfg estimateFailFetches sampleNow 0
            freshState).2).api_status.failed_scrapes = 0
      ∧ ((collect_metrics plainCfg estimateFailFetches sampleNow 0
            freshState).2).api_status.last_error = none) := by
  exact ⟨⟨rfl, rfl, rfl⟩, ⟨rfl, rfl, rfl, rfl⟩, ⟨rfl, rfl, rfl⟩⟩

/-- Claim C2: whenever any of the three fetches of a cycle fails, the
published snapshot after the cycle equals the snapshot before it. -/
theorem C2_failed_cycle_preserves_snapshot (cfg : Config) (f : FetchOutcomes)
    (now : NowParts) (dur : ℚ) (st : CollectorState)
    (h : f.project.isOk = false ∨ f.usage.isOk = false ∨ f.estimated.isOk = false) :
    ((collect_metrics cfg f now dur st).2).metrics_json = st.metrics_json := by
  rcases hp : f.project with e | project
  · simp [collect_metrics, hp]
  · rcases hu : f.usage with e | usage
    · simp [collect_metrics, hp, hu]
    · rcases he : f.estimated with e | est
      · simp [collect_metrics, hp, hu, he]
      · rw [hp, hu, he] at h
        simp [Except.isOk, Except.toBool] at h

/-- Witness for C2 at a concrete failed cycle over a state that already
holds a snapshot. -/
theorem C2_witness :
    ((collect_metrics plainCfg usageFailFetches sampleNow 0 prevState).2).metrics_json =
      prevState.metrics_json :=
  C2_failed_cycle_preserves_snapshot plainCfg usageFailFetches sampleNow 0 prevState
    (Or.inr (Or.inl rfl))

/-- Claim C3: the group assigned to a service name is the first configured
group, in the mapping's iteration order, one of whose patterns is a
substring of the name or equal to it; with no matching group the default
bucket `"ungrouped"` is assigned. -/
theorem C3_first_matching_group_wins (sg : List (String × List String)) (name : String) :
    (∀ pre g ps post, sg = pre ++ (g, ps) :: post →
        (∀ e ∈ pre, groupPatternMatches name e.2 = false) →
        groupPatternMatches name ps = true →
        resolveGroup sg name = g)
    ∧ ((∀ e ∈ sg, groupPatternMatches name e.2 = false) →
        resolveGroup sg name = "ungrouped") := by
  constructor
  · rintro pre g ps post rfl hpre hm
    unfold resolveGroup
    induction pre with
    | nil => simp [hm]
    | cons hd tl ih =>
      have hhd : groupPatternMatches name hd.2 = false := hpre hd (by simp)
      rw [List.cons_append, List.find?_cons_of_neg]
      · exact ih (fun e he => hpre e (by simp [he]))
      · simp [hhd]
  · intro hnone
    unfold resolveGroup
    rw [List.find?_eq_none.mpr]
    · rfl
    · intro x hx
      simp [hnone x hx]

/-- Witness for C3: `"api-server"` contains the pattern `"api"` of the
second group and matches nothing earlier; `"worker"` matches no group. -/
theorem C3_witness :
    resolveGroup c3Groups "api-server" = "backend"
    ∧ resolveGroup c3Groups "worker" = "ungrouped" := by
  constructor
  · exact (C3_first_matching_group_wins c3Groups "api-server").1
      [("db", ["postgres", "redis"])] "backend" ["api"] [("frontend", ["web"])]
      rfl (by decide) (by decide)
  · exact (C3_first_matching_group_wins c3Groups "worker").2 (by decide)

set_option maxHeartbeats 2000000 in
/-- Claim C7: for every year in `chrono`'s representable range and every
calendar month, `days_in_current_month` returns the true month length:
leap-year Februaries give 29, ordinary Februaries 28, and December wraps to
January of the next year giving 31. -/
theorem C7_days_in_month_correct (y : Int) (m : Nat)
    (h1 : 1 ≤ m) (h2 : m ≤ 12) (h3 : -262144 ≤ y) (h4 : y ≤ 262142) :
    days_in_current_month y m = some (monthLengthSpec y m) := by
  have hy1 : y ≤ 262143 := by omega
  have hy2 : -262144 ≤ y + 1 := by omega
  have hy3 : y + 1 ≤ 262143 := by omega
  interval_cases m <;>
    cases hl : isLeapYear y <;>
    simp [days_in_current_month, NDate.from_ymd_opt, NDate.pred_opt, NDate.day, NDate.month,
      cumDaysBefore, daysInYear, monthLengthSpec, hl, h3, hy1, hy2, hy3] <;>
    first
      | decide
      | exact ⟨by omega, by decide⟩

/-- Witness for C7 at the three inputs named by the claim. -/
theorem C7_witness :
    days_in_current_month 2024 2 = some 29
    ∧ days_in_current_month 2023 2 = some 28
    ∧ days_in_current_month 2024 12 = some 31 := by
  refine ⟨?_, ?_, ?_⟩
  · rw [C7_days_in_month_correct 2024 2 (by norm_num) (by norm_num) (by norm_num) (by norm_num)]
    decide
  · rw [C7_days_in_month_correct 2023 2 (by norm_num) (by norm_num) (by norm_num) (by norm_num)]
    decide
  · rw [C7_days_in_month_correct 2024 12 (by norm_num) (by norm_num) (by norm_num) (by norm_num)]
    decide

/-- Claim C8: `get_icon` returns an icon reference that is already a
`data:` URL unchanged without touching the cache, and returns the empty
string for an empty reference, also without touching the cache. -/
theorem C8_data_url_and_empty_passthrough (cap : Nat)
    (fetch : String → Except String CachedIcon) (cache : Lru) (name url : String) :
    (rsStartsWith url "data:" = true →
      IconCache.get_icon cap fetch cache name url = (url, cache))
    ∧ (url = "" → IconCache.get_icon cap fetch cache name url = ("", cache)) := by
  constructor
  · intro h
    have hne : rsIsEmpty url = false := by
      cases hc : url.toList with
      | nil =>
        have hfalse : rsStartsWith url "data:" = false := by
          unfold rsStartsWith
          rw [hc]
          decide
        rw [hfalse] at h
        cases h
      | cons a t =>
        unfold rsIsEmpty
        rw [hc]
        rfl
    simp [IconCache.get_icon, hne, h]
  · intro h
    subst h
    rfl

/-- Witness for C8 on a concrete cache: a data URL and an empty reference
pass through with the cache contents intact. -/
theorem C8_witness :
    IconCache.get_icon 200 failingIconFetch [("api", sampleIcon)] "api"
        "data:image/svg+xml;base64,PHN2Zy8+" =
      ("data:image/svg+xml;base64,PHN2Zy8+", [("api", sampleIcon)])
    ∧ IconCache.get_icon 200 failingIconFetch [("api", sampleIcon)] "api" "" =
      ("", [("api", sampleIcon)]) :=
  ⟨(C8_data_url_and_empty_passthrough 200 failingIconFetch [("api", sampleIcon)] "api"
      "data:image/svg+xml;base64,PHN2Zy8+").1 (by decide),
   (C8_data_url_and_empty_passthrough 200 failingIconFetch [("api", sampleIcon)] "api"
      "").2 rfl⟩

/-- Claim C9: a failed icon fetch never propagates: on a cache miss with a
failing fetch, `get_icon` returns the original URL as fallback and stores
nothing; and the success of a collector cycle never depends on the icon
fetch outcomes — whenever the three API fetches succeed the cycle returns
`Ok`, whatever the icon fetches do. -/
theorem C9_icon_failure_never_propagates :
    (∀ (cap : Nat) (fetch : String → Except String CachedIcon) (cache : Lru)
        (name url err : String),
        rsIsEmpty url = false →
        rsStartsWith url "data:" = false →
        cache.lookup name = none →
        fetch url = Except.error err →
        IconCache.get_icon cap fetch cache name url = (url, cache))
    ∧ (∀ (cfg : Config) (f : FetchOutcomes) (now : NowParts) (dur : ℚ)
        (st : CollectorState) (p : Project) (u : UsageMap) (est : EstimatedMap),
        f.project = Except.ok p → f.usage = Except.ok u → f.estimated = Except.ok est →
        (collect_metrics cfg f now dur st).1 = Except.ok ()) := by
  constructor
  · intro cap fetch cache name url err h1 h2 hmiss hfail
    simp [IconCache.get_icon, h1, h2, lruGet, hmiss, hfail]
  · intro cfg f now dur st p u est hp hu he
    simp [collect_metrics, hp, hu, he]

/-- Witness for C9: a concrete failed fetch falls back to the URL with the
cache unchanged, and a concrete cycle whose icon fetches all fail still
returns `Ok`. -/
theorem C9_witness :
    IconCache.get_icon 200 failingIconFetch [] "api" "https://example.com/icon.png" =
      ("https://example.com/icon.png", [])
    ∧ (collect_metrics iconCfg okFetches sampleNow 0 freshState).1 = Except.ok () :=
  ⟨C9_icon_failure_never_propagates.1 200 failingIconFetch [] "api"
      "https://example.com/icon.png" "HTTP error: connection refused"
      (by decide) (by decide) rfl rfl,
   C9_icon_failure_never_propagates.2 iconCfg okFetches sampleNow 0 freshState
      sampleProjectWithIcons
      [("svc-1", [("CPU_USAGE", 1000)]), ("svc-gone", [("MEMORY_USAGE_GB", 10)])]
      [("CPU_USAGE", 2000)] rfl rfl rfl⟩

/-- Estimate distribution touches only `estimated_monthly_usd`: every input
entry has a counterpart in the output with the same identity fields. -/
lemma distributeEstimated_mem (em tc : ℚ) (l : List ServiceData) (x : ServiceData)
    (hx : x ∈ l) :
    ∃ y ∈ distributeEstimated em tc l,
      y.id = x.id ∧ y.is_deleted = x.is_deleted ∧ y.name = x.name ∧ y.group = x.group := by
  unfold distributeEstimated
  split
  · exact ⟨_, List.mem_map_of_mem _ hx, rfl, rfl, rfl, rfl⟩
  · exact ⟨x, hx, rfl, rfl, rfl, rfl⟩

/-- Erasing the binding of one key leaves lookups of other keys unchanged. -/
lemma lookup_eraseP_ne {α : Type} (acc : List (String × α)) (k sid : String)
    (h : ¬sid = k) :
    (acc.eraseP (fun e => e.1 == k)).lookup sid = acc.lookup sid := by
  induction acc with
  | nil => rfl
  | cons hd tl ih =>
    by_cases hh : hd.1 = k
    · rw [List.eraseP_cons_of_pos (by simp [hh])]
      rw [List.lookup_cons]
      have hne : (sid == hd.1) = false := by
        rw [hh]
        simp [h]
      simp [hne]
    · rw [List.eraseP_cons_of_neg (by simp [hh])]
      rw [List.lookup_cons, List.lookup_cons]
      by_cases hs : sid = hd.1
      · simp [hs]
      · simp [hs, ih]

/-- Key membership after a `hmInsert`. -/
lemma hmInsert_lookup_isSome {α : Type} (m : List (String × α)) (k sid : String) (v : α) :
    (((hmInsert m k v).lookup sid).isSome) = ((k == sid) || (m.lookup sid).isSome) := by
  unfold hmInsert
  rw [List.lookup_cons]
  by_cases hs : sid = k
  · simp [hs]
  · have h1 : (sid == k) = false := by simp [hs]
    have h2 : (k == sid) = false := by
      have : ¬k = sid := fun hh => hs hh.symm
      simp [this]
    simp [h1, h2, lookup_eraseP_ne m k sid hs]

/-- Key membership in the folded services map: an id is present exactly when
some processed entry carries it or it was present in the accumulator. -/
lemma servicesMap_foldl_lookup (cfg : Config) (fetch : String → Except String CachedIcon)
    (l : List (String × String × String × String))
    (acc : List (String × String × String × String) × Lru) (sid : String) :
    (((l.foldl (servicesMapStep cfg fetch) acc).1.lookup sid).isSome) =
      (l.any (fun e => e.1 == sid) || (acc.1.lookup sid).isSome) := by
  induction l generalizing acc with
  | nil => simp
  | cons e t ih =>
    rw [List.foldl_cons, ih]
    have hstep : (((servicesMapStep cfg fetch acc e).1.lookup sid).isSome) =
        ((e.1 == sid) || ((acc.1.lookup sid).isSome)) := by
      unfold servicesMapStep
      exact hmInsert_lookup_isSome _ _ _ _
    rw [hstep, List.any_cons]
    cases e.1 == sid <;> cases t.any (fun e => e.1 == sid) <;>
      cases (acc.1.lookup sid).isSome <;> rfl

/-- `any` over a mapped list tests the composed predicate. -/
lemma list_any_map {α β : Type} (l : List α) (f : α → β) (p : β → Bool) :
    (l.map f).any p = l.any (fun a => p (f a)) := by
  induction l with
  | nil => rfl
  | cons h t ih => simp [List.any_cons, ih]

/-- The services map built by a cycle contains exactly the ids of the
fetched service list. -/
lemma buildServicesMap_contains (cfg : Config) (fetch : String → Except String CachedIcon)
    (cache : Lru) (p : Project) (sid : String) :
    (((buildServicesMap cfg fetch cache p).1.lookup sid).isSome) =
      p.services.edges.any (fun e => e.node.id == sid) := by
  unfold buildServicesMap
  rw [servicesMap_foldl_lookup]
  simp only [servicesRaw, List.lookup_nil, Option.isSome_none, Bool.or_false]
  rw [list_any_map]

/-- Claim C5: in a successful cycle whose accumulated total cost is zero, no
distribution happens and every service's `estimated_monthly_usd` in the
published snapshot is exactly 0, whatever the project-level estimate is. -/
theorem C5_zero_total_cost_all_zero_estimates (cfg : Config) (f : FetchOutcomes)
    (now : NowParts) (dur : ℚ) (st st' : CollectorState)
    (p : Project) (u : UsageMap) (est : EstimatedMap)
    (hp : f.project = Except.ok p) (hu : f.usage = Except.ok u)
    (he : f.estimated = Except.ok est)
    (hres : collect_metrics cfg f now dur st = (Except.ok (), st'))
    (htc : totalCost cfg u = 0) :
    ∃ mj, st'.metrics_json = some mj ∧
      ∀ sd ∈ mj.services, sd.estimated_monthly_usd = 0 := by
  simp [collect_metrics, hp, hu, he] at hres
  subst hres
  refine ⟨_, rfl, ?_⟩
  intro sd hsd
  simp [distributeEstimated, htc, servicesData] at hsd
  obtain ⟨su, m2, hmem2, rfl⟩ := hsd
  rfl

/-- Witness for C5: a concrete successful cycle with zero total cost and a
non-zero monthly estimate publishes only zero per-service estimates. -/
theorem C5_witness :
    totalCost plainCfg [("svc-1", []), ("svc-2", [])] = 0
    ∧ ∃ mj,
        ((collect_metrics plainCfg zeroUsageFetches sampleNow 0 freshState).2).metrics_json =
          some mj
        ∧ ∀ sd ∈ mj.services, sd.estimated_monthly_usd = 0 :=
  ⟨by simp [totalCost, serviceCost, measGet],
   C5_zero_total_cost_all_zero_estimates plainCfg zeroUsageFetches sampleNow 0 freshState
    (collect_metrics plainCfg zeroUsageFetches sampleNow 0 freshState).2
    sampleProject [("svc-1", []), ("svc-2", [])] [("CPU_USAGE", 2000)]
    rfl rfl rfl rfl (by simp [totalCost, serviceCost, measGet])⟩

/-- Claim C6: every service id in the usage data yields a snapshot entry;
the entry's `is_deleted` flag is set exactly when the id is absent from the
services map, whose keys are exactly the ids of the fetched service list;
an absent id gets the placeholder name (the id itself) and the group
`"ungrouped"`. -/
theorem C6_deleted_service_entries (cfg : Config) (f : FetchOutcomes)
    (now : NowParts) (dur : ℚ) (st st' : CollectorState)
    (p : Project) (u : UsageMap) (est : EstimatedMap) (sid : String)
    (m : List (String × ℚ))
    (hp : f.project = Except.ok p) (hu : f.usage = Except.ok u)
    (he : f.estimated = Except.ok est)
    (hres : collect_metrics cfg f now dur st = (Except.ok (), st'))
    (hmem : (sid, m) ∈ u) :
    ∃ mj, st'.metrics_json = some mj ∧
      ((((buildServicesMap cfg f.iconFetch st.icon_cache p).1.lookup sid).isSome) =
        p.services.edges.any (fun e => e.node.id == sid)) ∧
      ∃ sd ∈ mj.services,
        sd.id = sid ∧
        sd.is_deleted =
          (((buildServicesMap cfg f.iconFetch st.icon_cache p).1.lookup sid).isNone) ∧
        ((((buildServicesMap cfg f.iconFetch st.icon_cache p).1.lookup sid) = none) →
          sd.name = sid ∧ sd.group = "ungrouped") := by
  simp [collect_metrics, hp, hu, he] at hres
  subst hres
  refine ⟨_, rfl, buildServicesMap_contains cfg f.iconFetch st.icon_cache p sid, ?_⟩
  have hx : buildServiceData cfg (buildServicesMap cfg f.iconFetch st.icon_cache p).1 sid m ∈
      servicesData cfg (buildServicesMap cfg f.iconFetch st.icon_cache p).1 u :=
    List.mem_map_of_mem _ hmem
  obtain ⟨y, hy, h1, h2, h3, h4⟩ := distributeEstimated_mem
    (estMonthly cfg est) (totalCost cfg u) _ _ hx
  refine ⟨y, hy, ?_, ?_, ?_⟩
  · rw [h1]
    rfl
  · rw [h2]
    unfold buildServiceData
    cases hlk : (buildServicesMap cfg f.iconFetch st.icon_cache p).1.lookup sid <;>
      simp [hlk]
  · intro hnone
    rw [h3, h4]
    unfold buildServiceData
    rw [hnone]
    exact ⟨rfl, rfl⟩

/-- Witness for C6 at a concrete cycle: the usage id `"svc-gone"` is absent
from the fetched service list and still yields a snapshot entry. -/
theorem C6_witness :
    ∃ mj,
      ((collect_metrics plainCfg okFetches sampleNow 0 freshState).2).metrics_json = some mj
      ∧ ((((buildServicesMap plainCfg okFetches.iconFetch freshState.icon_cache
              sampleProjectWithIcons).1.lookup "svc-gone").isSome) =
          sampleProjectWithIcons.services.edges.any (fun e => e.node.id == "svc-gone"))
      ∧ ∃ sd ∈ mj.services,
          sd.id = "svc-gone"
          ∧ sd.is_deleted =
              (((buildServicesMap plainCfg okFetches.iconFetch freshState.icon_cache
                  sampleProjectWithIcons).1.lookup "svc-gone").isNone)
          ∧ ((((buildServicesMap plainCfg okFetches.iconFetch freshState.icon_cache
                  sampleProjectWithIcons).1.lookup "svc-gone") = none) →
              sd.name = "svc-gone" ∧ sd.group = "ungrouped") :=
  C6_deleted_service_entries plainCfg okFetches sampleNow 0 freshState
    (collect_metrics plainCfg okFetches sampleNow 0 freshState).2
    sampleProjectWithIcons
    [("svc-1", [("CPU_USAGE", 1000)]), ("svc-gone", [("MEMORY_USAGE_GB", 10)])]
    [("CPU_USAGE", 2000)] "svc-gone" [("MEMORY_USAGE_GB", 10)] rfl rfl rfl rfl
    (List.Mem.tail _ (List.Mem.head _))

/-- Claim C4: a subscriber connecting after a successful cycle is sent the
status message and then the metrics message, as two discrete messages, and
only then subscribes to the broadcast channel — so both precede any fanout
event that subscriber can receive. -/
theorem C4_connect_sends_status_then_metrics (cfg : Config) (f : FetchOutcomes)
    (now : NowParts) (dur : ℚ) (st st' : CollectorState) (status0 : WsStatus)
    (hres : collect_metrics cfg f now dur st = (Except.ok (), st')) :
    ∃ mj, st'.metrics_json = some mj ∧
      wsConnectPhase st'.metrics_json status0 true true =
        [WsEvent.sent (WsMessage.status status0), WsEvent.sent (WsMessage.metrics mj),
         WsEvent.subscribed] := by
  rcases hp : f.project with e | p
  · simp [collect_metrics, hp] at hres
  · rcases hu : f.usage with e | u
    · simp [collect_metrics, hp, hu] at hres
    · rcases he : f.estimated with e | est
      · simp [collect_metrics, hp, hu, he] at hres
      · simp [collect_metrics, hp, hu, he] at hres
        subst hres
        exact ⟨_, rfl, rfl⟩

/-- Witness for C4 after a concrete successful cycle. -/
theorem C4_witness :
    ∃ mj,
      ((collect_metrics plainCfg okFetches sampleNow 0 freshState).2).metrics_json = some mj
      ∧ wsConnectPhase
          ((collect_metrics plainCfg okFetches sampleNow 0 freshState).2).metrics_json
          sampleStatus true true =
          [WsEvent.sent (WsMessage.status sampleStatus), WsEvent.sent (WsMessage.metrics mj),
           WsEvent.subscribed] :=
  C4_connect_sends_status_then_metrics plainCfg okFetches sampleNow 0 freshState
    (collect_metrics plainCfg okFetches sampleNow 0 freshState).2 sampleStatus rfl

/-- Claim C10: the broadcast channel is created with a fixed buffer of 16;
any receive error — including the lag error raised when a subscriber falls
behind that buffer — makes the handler call `ws_client_disconnect` exactly
once and break out of its loop (the subscriber is dropped, never resumed
with skipped messages); one disconnect call decrements the stored counter
by one. -/
theorem C10_lagging_subscriber_dropped :
    wsBroadcastCapacity = 16
    ∧ (∀ (r : RecvResult) (sendOk : Bool),
        ((∃ n, r = RecvResult.lagged n) ∨ r = RecvResult.closed) →
        wsBroadcastStep r sendOk =
          { events := [WsEvent.disconnected], broke := true, disconnect_calls := 1 })
    ∧ (∀ c : Nat, 0 < c → c < U32_MOD → ws_client_disconnect c = c - 1) := by
  refine ⟨rfl, ?_, ?_⟩
  · rintro r sendOk (⟨n, rfl⟩ | rfl) <;> rfl
  · intro c h1 h2
    simp only [ws_client_disconnect, U32_MOD] at h2 ⊢
    omega

/-- Witness for C10: a concrete lagged receiver is disconnected once and the
counter drops from 2 to 1. -/
theorem C10_witness :
    wsBroadcastStep (RecvResult.lagged 3) true =
      { events := [WsEvent.disconnected], broke := true, disconnect_calls := 1 }
    ∧ ws_client_disconnect 2 = 1 :=
  ⟨C10_lagging_subscriber_dropped.2.1 (RecvResult.lagged 3) true (Or.inl ⟨3, rfl⟩),
   C10_lagging_subscriber_dropped.2.2 2 (by norm_num) (by norm_num [U32_MOD])⟩

end Railway
